import Mathlib

/-!
Shallow embedding of `archive/test-scripts/failover_load_test.py`: the
`FailoverMetrics` record-keeping class, the summary/reporting functions of
`FailoverLoadTester`, and the per-attempt write path.

Modelling conventions:
* Python `datetime` timestamps and float durations become `ℚ`.
* `datetime.now()` inside `record_write_attempt` becomes an explicit
  `timestamp` argument (the ambient clock).
* Python `None` becomes `Option.none`; Python truthiness of an optional
  float (`if summary[...]:`) is `pyTruthy`: `none` and `some 0` are falsy.
* `sys.exit(1)` becomes an `Except.error` result that aborts the remaining
  control flow; exceptions raised by the database driver become explicit
  outcome constructors fed to the modelled function.
* The asynchronous worker pool is abstracted to the sequence of completed
  write attempts, in the order the recorder observes them (the spec itself
  only guarantees append order, not wall-clock order).
-/

/-- One entry of `FailoverMetrics.write_attempts`: the dict
`{timestamp, success, duration_ms, error}` appended by
`record_write_attempt`. -/
structure WriteAttempt where
  timestamp : ℚ
  success : Bool
  duration_ms : ℚ
  error : Option String
deriving Repr, DecidableEq

/-- The mutable state of the Python class `FailoverMetrics`
(`__init__`, lines 41-50). `connection_failures` is initialised but never
written anywhere in the file, so it is omitted. -/
structure FailoverMetrics where
  write_attempts : List WriteAttempt
  successful_writes : ℕ
  failed_writes : ℕ
  start_time : Option ℚ
  first_failure_time : Option ℚ
  last_failure_time : Option ℚ
  first_recovery_time : Option ℚ
  test_running : Bool
deriving Repr, DecidableEq

/-- Model of `FailoverMetrics.__init__`. -/
def FailoverMetrics.init : FailoverMetrics :=
  { write_attempts := []
    successful_writes := 0
    failed_writes := 0
    start_time := none
    first_failure_time := none
    last_failure_time := none
    first_recovery_time := none
    test_running := true }

/-- Model of `FailoverMetrics.record_write_attempt` (lines 52-73): append the attempt,
bump the matching counter, set `first_failure_time` on the first failure,
set `first_recovery_time` on the first success observed while
`first_failure_time` is set and `first_recovery_time` is not, and set
`last_failure_time` on every failure.  A `datetime` is always truthy in
Python, so `if self.first_failure_time` is an is-not-None test. -/
def FailoverMetrics.record_write_attempt (m : FailoverMetrics) (success : Bool)
    (duration_ms : ℚ) (error : Option String) (timestamp : ℚ) : FailoverMetrics :=
  let m1 : FailoverMetrics :=
    { m with write_attempts :=
        m.write_attempts ++ [{ timestamp := timestamp, success := success,
                               duration_ms := duration_ms, error := error }] }
  if success then
    let m2 : FailoverMetrics := { m1 with successful_writes := m1.successful_writes + 1 }
    if m2.first_failure_time.isSome && m2.first_recovery_time.isNone then
      { m2 with first_recovery_time := some timestamp }
    else m2
  else
    let m2 : FailoverMetrics := { m1 with failed_writes := m1.failed_writes + 1 }
    let m3 : FailoverMetrics :=
      if m2.first_failure_time.isNone then
        { m2 with first_failure_time := some timestamp }
      else m2
    { m3 with last_failure_time := some timestamp }

/-- One call to `record_write_attempt`: the arguments passed by the worker
plus the value `datetime.now()` returns during the call. -/
structure AttemptInput where
  success : Bool
  duration_ms : ℚ
  error : Option String
  timestamp : ℚ
deriving Repr, DecidableEq

/-- The `write_attempts` entry that recording this input appends. -/
def AttemptInput.toAttempt (a : AttemptInput) : WriteAttempt :=
  { timestamp := a.timestamp, success := a.success,
    duration_ms := a.duration_ms, error := a.error }

/-- Replay a sequence of `record_write_attempt` calls from a given state. -/
def runFrom (m : FailoverMetrics) (l : List AttemptInput) : FailoverMetrics :=
  l.foldl (fun acc a => acc.record_write_attempt a.success a.duration_ms a.error a.timestamp) m

/-- Replay a sequence of `record_write_attempt` calls from the freshly
constructed metrics object. -/
def runAttempts (l : List AttemptInput) : FailoverMetrics :=
  runFrom FailoverMetrics.init l

/-- Timestamp of the first failed attempt of the sequence, if any
(spec-side description of what `first_failure_time` should hold). -/
def specFirstFailure (l : List AttemptInput) : Option ℚ :=
  (l.find? (fun a => !a.success)).map (fun a => a.timestamp)

/-- Timestamp of the first successful attempt strictly after the first
failed attempt, if any (spec-side description of `first_recovery_time`). -/
def specFirstRecovery : List AttemptInput → Option ℚ
  | [] => none
  | a :: rest =>
    if a.success then specFirstRecovery rest
    else (rest.find? (fun b => b.success)).map (fun b => b.timestamp)

/-- Model of `statistics.mean` on a non-empty list: the exact arithmetic mean. -/
def pyMean (l : List ℚ) : ℚ := l.sum / l.length

/-- Model of `statistics.median`: sort, take the middle element when the length is
odd, otherwise the average of the two middle elements.  Only ever applied
to non-empty lists in the source (guarded by `if successful_durations`). -/
def pyMedian (l : List ℚ) : ℚ :=
  let s := l.mergeSort (fun a b => a ≤ b)
  let n := s.length
  if n % 2 = 1 then s.getD (n / 2) 0
  else (s.getD (n / 2 - 1) 0 + s.getD (n / 2) 0) / 2

/-- The dict returned by `FailoverMetrics.get_summary` (lines 90-101).
`test_start_time`, `first_failure_time` and `first_recovery_time` are ISO
strings of the stored timestamps; the model keeps the timestamps. -/
structure Summary where
  total_attempts : ℕ
  successful_writes : ℕ
  failed_writes : ℕ
  success_rate : ℚ
  test_start_time : Option ℚ
  first_failure_time : Option ℚ
  first_recovery_time : Option ℚ
  failover_duration_seconds : Option ℚ
  avg_write_duration_ms : Option ℚ
  median_write_duration_ms : Option ℚ
deriving Repr, DecidableEq

/-- Model of `FailoverMetrics.get_failover_duration_seconds` (lines 75-80), as the
Python method runs: it may in principle update the state, so the embedding
returns the result together with the state after the call.  The body only
reads `first_failure_time` and `first_recovery_time`. -/
def FailoverMetrics.get_failover_duration_seconds_run (m : FailoverMetrics) :
    Option ℚ × FailoverMetrics :=
  match m.first_failure_time, m.first_recovery_time with
  | some f, some r => (some (r - f), m)
  | _, _ => (none, m)

/-- Result of `get_failover_duration_seconds`, ignoring the (unchanged)
state. -/
def FailoverMetrics.get_failover_duration_seconds (m : FailoverMetrics) : Option ℚ :=
  m.get_failover_duration_seconds_run.1

/-- Model of `FailoverMetrics.get_summary` (lines 82-101), state-passing like
`get_failover_duration_seconds_run`: computes the failover duration, the
durations of the successful attempts, and builds the summary dict.
`success_rate` is `(successful_writes / len(write_attempts) * 100)` when
the attempt list is non-empty (Python truthiness of a list) and `0`
otherwise; mean and median are taken over `successful_durations` when that
list is non-empty and are `None` otherwise. -/
def FailoverMetrics.get_summary_run (m : FailoverMetrics) : Summary × FailoverMetrics :=
  let fd := m.get_failover_duration_seconds_run
  let m1 := fd.2
  let successful_durations :=
    (m1.write_attempts.filter (fun w => w.success)).map (fun w => w.duration_ms)
  ({ total_attempts := m1.write_attempts.length
     successful_writes := m1.successful_writes
     failed_writes := m1.failed_writes
     success_rate :=
       if m1.write_attempts.isEmpty then 0
       else (m1.successful_writes : ℚ) / (m1.write_attempts.length : ℚ) * 100
     test_start_time := m1.start_time
     first_failure_time := m1.first_failure_time
     first_recovery_time := m1.first_recovery_time
     failover_duration_seconds := fd.1
     avg_write_duration_ms :=
       if successful_durations.isEmpty then none else some (pyMean successful_durations)
     median_write_duration_ms :=
       if successful_durations.isEmpty then none else some (pyMedian successful_durations) },
   m1)

/-- Result of `get_summary`, ignoring the (unchanged) state. -/
def FailoverMetrics.get_summary (m : FailoverMetrics) : Summary :=
  m.get_summary_run.1

/-- The three shapes the failover section of `print_summary` can take
(lines 305-320): one of the two SLA verdict lines, or the no-failover
notice. -/
inductive FailoverVerdict where
  | passed
  | exceeded
  | notDetected
deriving Repr, DecidableEq

/-- The failover/SLA branch of `FailoverLoadTester.print_summary`
(lines 305-320): `if summary['failover_duration_seconds']:` is a Python
truthiness test, so a `None` duration and a `0.0` duration both fall to the
`NO FAILOVER DETECTED` branch; inside, `< 120` selects `PASSED` versus
`EXCEEDED SLA target`. -/
def print_summary_verdict (m : FailoverMetrics) : FailoverVerdict :=
  let summary := m.get_summary
  match summary.failover_duration_seconds with
  | some d => if d ≠ 0 then (if d < 120 then .passed else .exceeded) else .notDetected
  | none => .notDetected

/-- What happens inside the `try` of `FailoverLoadTester.write_info_request`
(lines 160-192): either the insert commits, or the database driver raises an
`OperationalError`/`DatabaseError` (which may carry an `orig` attribute), or
some other exception is raised (for instance `random.choice` on an empty
`cruise_ids` list raises `IndexError`).  Each constructor carries the
elapsed milliseconds measured at the matching `time.perf_counter` call. -/
inductive WriteOutcome where
  | committed (duration_ms : ℚ)
  | dbError (duration_ms : ℚ) (orig : Option String) (msg : String)
  | otherError (duration_ms : ℚ) (msg : String)
deriving Repr, DecidableEq

/-- Model of `FailoverLoadTester.write_info_request` as a function of the outcome of
its database interaction: returns `(success, duration_ms, error_message)`.
Every exception is caught — the commit path returns
`(True, duration_ms, None)`; an `OperationalError`/`DatabaseError` returns
`(False, duration_ms, str(e.orig) if hasattr(e, 'orig') else str(e))`; any
other exception returns `(False, duration_ms, str(e))`.  No branch
re-raises. -/
def write_info_request : WriteOutcome → Bool × ℚ × Option String
  | .committed d => (true, d, none)
  | .dbError d orig msg =>
    (false, d, some (match orig with | some o => o | none => msg))
  | .otherError d msg => (false, d, some msg)

/-- The `record_write_attempt` input produced by one worker-loop iteration
(lines 198-206): the triple returned by `write_info_request` together with
the `datetime.now()` value observed inside `record_write_attempt`. -/
def attemptOfOutcome (timestamp : ℚ) (o : WriteOutcome) : AttemptInput :=
  { success := (write_info_request o).1
    duration_ms := (write_info_request o).2.1
    error := (write_info_request o).2.2
    timestamp := timestamp }

/-- What happens inside the `try` of `FailoverLoadTester.setup_test_data`
(lines 145-158): either the `select(Cruise)` query returns a list of cruise
ids, or it raises. -/
inductive SetupOutcome where
  | ok (cruise_ids : List ℕ)
  | exn (msg : String)
deriving Repr, DecidableEq

/-- Model of `FailoverLoadTester.setup_test_data`: when the query returns no cruises
it prints a notice and calls `sys.exit(1)`; when it raises, the handler
prints the error and calls `sys.exit(1)`; otherwise `self.cruise_ids` is
set to the queried ids.  `sys.exit(1)` is modelled as `Except.error`. -/
def setup_test_data : SetupOutcome → Except String (List ℕ)
  | .ok ids =>
    if ids.isEmpty then .error "No cruise data found. Please run seed_data.py first."
    else .ok ids
  | .exn msg => .error ("Failed to setup test data: " ++ msg)

/-- Final state of one call to `FailoverLoadTester.run_load_test`
(lines 233-285): whether setup aborted the run, how many worker tasks were
created, how many write attempts were issued, and the metrics object at the
end of the run. -/
structure RunOutcome where
  setup_error : Option String
  workers_started : ℕ
  attempts_issued : ℕ
  metrics : FailoverMetrics
deriving Repr, DecidableEq

/-- Model of `FailoverLoadTester.run_load_test`, with the concurrent worker pool
abstracted to `schedule`, the timestamped sequence of write outcomes the
workers complete before the stop flag ends the run.  `setup_test_data` runs
first and its `sys.exit(1)` propagates before `self.metrics.start_time` is
assigned and before any `asyncio.create_task` call, so on a setup error no
worker starts and no write attempt is issued.  On success every scheduled
outcome passes through `write_info_request` and is recorded. -/
def run_load_test (num_workers : ℕ) (start_time : ℚ) (setup : SetupOutcome)
    (schedule : List (ℚ × WriteOutcome)) : RunOutcome :=
  match setup_test_data setup with
  | .error e =>
    { setup_error := some e, workers_started := 0, attempts_issued := 0,
      metrics := FailoverMetrics.init }
  | .ok _ =>
    { setup_error := none
      workers_started := num_workers
      attempts_issued := schedule.length
      metrics :=
        runFrom { FailoverMetrics.init with start_time := some start_time }
          (schedule.map (fun p => attemptOfOutcome p.1 p.2)) }

/-- Model of `FailoverLoadTester.__init__` (lines 107-110), the rate computation:
`self.write_delay = 1.0 / (writes_per_second / num_workers)`.  In Python
both divisions raise `ZeroDivisionError` on a zero divisor (`int / 0` and
`1.0 / 0.0` alike), so the delay is `none` when `num_workers = 0` or when
the integer rate is `0`. -/
def write_delay (writes_per_second num_workers : ℕ) : Option ℚ :=
  if num_workers = 0 then none
  else
    let per_worker : ℚ := (writes_per_second : ℚ) / (num_workers : ℚ)
    if per_worker = 0 then none
    else some (1 / per_worker)

/-- The fields of `FailoverLoadTester` set by `__init__` before the engine
is created (the connection-string and engine construction depend only on
environment variables, which the model assumes present and valid). -/
structure FailoverLoadTester where
  num_workers : ℕ
  writes_per_second : ℕ
  write_delay : ℚ
  metrics : FailoverMetrics
  cruise_ids : List ℕ
deriving Repr, DecidableEq

/-- Model of `FailoverLoadTester.__init__` (lines 107-112): constructing the tester
computes `write_delay`; a `ZeroDivisionError` there propagates out of the
constructor, modelled as `none`. -/
def constructFailoverLoadTester (num_workers writes_per_second : ℕ) :
    Option FailoverLoadTester :=
  (write_delay writes_per_second num_workers).map (fun d =>
    { num_workers := num_workers
      writes_per_second := writes_per_second
      write_delay := d
      metrics := FailoverMetrics.init
      cruise_ids := [] })

/-- Rewriting of `record_write_attempt` as a single simultaneous field update:
the attempt is appended, the matching counter is bumped, a failure fills
`first_failure_time` only when it was unset and always refreshes
`last_failure_time`, and a success fills `first_recovery_time` exactly when
`first_failure_time` is set and `first_recovery_time` is not. -/
theorem record_write_attempt_eq (m : FailoverMetrics) (s : Bool) (d : ℚ)
    (e : Option String) (t : ℚ) :
    m.record_write_attempt s d e t =
      { write_attempts := m.write_attempts ++
          [{ timestamp := t, success := s, duration_ms := d, error := e }]
        successful_writes := m.successful_writes + (if s then 1 else 0)
        failed_writes := m.failed_writes + (if s then 0 else 1)
        start_time := m.start_time
        first_failure_time :=
          if s then m.first_failure_time else some (m.first_failure_time.getD t)
        last_failure_time := if s then m.last_failure_time else some t
        first_recovery_time :=
          if s && m.first_failure_time.isSome && m.first_recovery_time.isNone
          then some t else m.first_recovery_time
        test_running := m.test_running } := by
  cases s <;> cases hf : m.first_failure_time <;> cases hr : m.first_recovery_time <;>
    simp [FailoverMetrics.record_write_attempt, hf, hr]

theorem runFrom_nil (m : FailoverMetrics) : runFrom m [] = m := rfl

theorem runFrom_cons (m : FailoverMetrics) (a : AttemptInput) (l : List AttemptInput) :
    runFrom m (a :: l) =
      runFrom (m.record_write_attempt a.success a.duration_ms a.error a.timestamp) l := rfl

theorem runFrom_write_attempts (l : List AttemptInput) : ∀ m : FailoverMetrics,
    (runFrom m l).write_attempts = m.write_attempts ++ l.map AttemptInput.toAttempt := by
  induction l with
  | nil => intro m; simp [runFrom]
  | cons a l ih =>
    intro m
    rw [runFrom_cons, ih, record_write_attempt_eq]
    simp [AttemptInput.toAttempt]

theorem runFrom_successful_writes (l : List AttemptInput) : ∀ m : FailoverMetrics,
    (runFrom m l).successful_writes =
      m.successful_writes + l.countP (fun a => a.success) := by
  induction l with
  | nil => intro m; simp [runFrom]
  | cons a l ih =>
    intro m
    rw [runFrom_cons, ih, record_write_attempt_eq]
    cases h : a.success
    · simp [List.countP_cons, h]
    · simp [List.countP_cons, h]
      omega

theorem runFrom_failed_writes (l : List AttemptInput) : ∀ m : FailoverMetrics,
    (runFrom m l).failed_writes =
      m.failed_writes + l.countP (fun a => !a.success) := by
  induction l with
  | nil => intro m; simp [runFrom]
  | cons a l ih =>
    intro m
    rw [runFrom_cons, ih, record_write_attempt_eq]
    cases h : a.success
    · simp [List.countP_cons, h]
      omega
    · simp [List.countP_cons, h]

theorem runFrom_first_failure_some (l : List AttemptInput) :
    ∀ (m : FailoverMetrics) (x : ℚ), m.first_failure_time = some x →
      (runFrom m l).first_failure_time = some x := by
  induction l with
  | nil => intro m x h; simpa [runFrom] using h
  | cons a l ih =>
    intro m x h
    rw [runFrom_cons]
    apply ih
    rw [record_write_attempt_eq]
    cases hs : a.success <;> simp [h]

theorem runFrom_first_failure_none (l : List AttemptInput) :
    ∀ m : FailoverMetrics, m.first_failure_time = none →
      (runFrom m l).first_failure_time = specFirstFailure l := by
  induction l with
  | nil => intro m h; simpa [runFrom, specFirstFailure] using h
  | cons a l ih =>
    intro m h
    rw [runFrom_cons]
    cases hs : a.success
    · have h2 : (m.record_write_attempt false a.duration_ms a.error
          a.timestamp).first_failure_time = some a.timestamp := by
        rw [record_write_attempt_eq]; simp [h]
      rw [runFrom_first_failure_some l _ _ h2]
      simp [specFirstFailure, List.find?_cons, hs]
    · have h2 : (m.record_write_attempt true a.duration_ms a.error
          a.timestamp).first_failure_time = none := by
        rw [record_write_attempt_eq]; simp [h]
      rw [ih _ h2]
      simp [specFirstFailure, List.find?_cons, hs]

theorem runFrom_first_recovery_some (l : List AttemptInput) :
    ∀ (m : FailoverMetrics) (r : ℚ), m.first_recovery_time = some r →
      (runFrom m l).first_recovery_time = some r := by
  induction l with
  | nil => intro m r h; simpa [runFrom] using h
  | cons a l ih =>
    intro m r h
    rw [runFrom_cons]
    apply ih
    rw [record_write_attempt_eq]
    cases hs : a.success <;> simp [h]

theorem runFrom_first_recovery_after_failure (l : List AttemptInput) :
    ∀ (m : FailoverMetrics) (x : ℚ), m.first_recovery_time = none →
      m.first_failure_time = some x →
      (runFrom m l).first_recovery_time =
        (l.find? (fun b => b.success)).map (fun b => b.timestamp) := by
  induction l with
  | nil => intro m x hr hf; simpa [runFrom] using hr
  | cons a l ih =>
    intro m x hr hf
    rw [runFrom_cons]
    cases hs : a.success
    · have hr2 : (m.record_write_attempt false a.duration_ms a.error
          a.timestamp).first_recovery_time = none := by
        rw [record_write_attempt_eq]; simp [hr]
      have hf2 : (m.record_write_attempt false a.duration_ms a.error
          a.timestamp).first_failure_time = some x := by
        rw [record_write_attempt_eq]; simp [hf]
      rw [ih _ _ hr2 hf2]
      simp [List.find?_cons, hs]
    · have hr2 : (m.record_write_attempt true a.duration_ms a.error
          a.timestamp).first_recovery_time = some a.timestamp := by
        rw [record_write_attempt_eq]; simp [hr, hf]
      rw [runFrom_first_recovery_some l _ _ hr2]
      simp [List.find?_cons, hs]

theorem runFrom_first_recovery_none (l : List AttemptInput) :
    ∀ m : FailoverMetrics, m.first_recovery_time = none →
      m.first_failure_time = none →
      (runFrom m l).first_recovery_time = specFirstRecovery l := by
  induction l with
  | nil => intro m hr hf; simpa [runFrom] using hr
  | cons a l ih =>
    intro m hr hf
    rw [runFrom_cons]
    cases hs : a.success
    · have hr2 : (m.record_write_attempt false a.duration_ms a.error
          a.timestamp).first_recovery_time = none := by
        rw [record_write_attempt_eq]; simp [hr]
      have hf2 : (m.record_write_attempt false a.duration_ms a.error
          a.timestamp).first_failure_time = some a.timestamp := by
        rw [record_write_attempt_eq]; simp [hf]
      rw [runFrom_first_recovery_after_failure l _ a.timestamp hr2 hf2]
      simp [specFirstRecovery, hs]
    · have hr2 : (m.record_write_attempt true a.duration_ms a.error
          a.timestamp).first_recovery_time = none := by
        rw [record_write_attempt_eq]; simp [hr, hf]
      have hf2 : (m.record_write_attempt true a.duration_ms a.error
          a.timestamp).first_failure_time = none := by
        rw [record_write_attempt_eq]; simp [hf]
      rw [ih _ hr2 hf2]
      simp [specFirstRecovery, hs]

theorem countP_success_add_countP_not (l : List AttemptInput) :
    l.countP (fun a => a.success) + l.countP (fun a => !a.success) = l.length := by
  induction l with
  | nil => simp
  | cons a t ih =>
    cases h : a.success
    · simp [List.countP_cons, h]
      omega
    · simp [List.countP_cons, h]
      omega

theorem specFirstRecovery_isSome_implies (l : List AttemptInput) :
    (specFirstRecovery l).isSome = true → (specFirstFailure l).isSome = true := by
  induction l with
  | nil => simp [specFirstRecovery, specFirstFailure]
  | cons a l ih =>
    cases hs : a.success
    · intro _
      simp [specFirstFailure, List.find?_cons, hs]
    · intro h
      have h2 : (specFirstRecovery l).isSome = true := by
        simpa [specFirstRecovery, hs] using h
      have h3 := ih h2
      simpa [specFirstFailure, List.find?_cons, hs] using h3

example :
    (runAttempts [⟨true, 3, none, 1⟩, ⟨false, 9, some "down", 10⟩,
                  ⟨false, 9, some "down", 12⟩, ⟨true, 4, none, 15⟩,
                  ⟨false, 9, some "x", 20⟩]).first_failure_time = some 10 := by
  decide

example :
    (runAttempts [⟨true, 3, none, 1⟩, ⟨false, 9, some "down", 10⟩,
                  ⟨false, 9, some "down", 12⟩, ⟨true, 4, none, 15⟩,
                  ⟨false, 9, some "x", 20⟩]).first_recovery_time = some 15 := by
  decide

example :
    specFirstRecovery [⟨true, 3, none, 1⟩, ⟨false, 9, some "down", 10⟩,
                       ⟨false, 9, some "down", 12⟩, ⟨true, 4, none, 15⟩,
                       ⟨false, 9, some "x", 20⟩] = some 15 := by
  decide

/-- Claim C1: over every sequence of recorded write attempts,
`first_failure_time` ends up equal to the timestamp of the first failed
attempt (and is unset when no failure was recorded), `first_recovery_time`
ends up equal to the timestamp of the first successful attempt recorded
after the first failure (and is unset otherwise, in particular while
`first_failure_time` is unset); a recovery timestamp implies a failure
timestamp in every reachable state; and once set, neither timestamp is
changed by any further sequence of recorded attempts. -/
theorem C1_first_failure_recovery (l : List AttemptInput) :
    (runAttempts l).first_failure_time = specFirstFailure l ∧
    (runAttempts l).first_recovery_time = specFirstRecovery l ∧
    ((runAttempts l).first_recovery_time.isSome = true →
      (runAttempts l).first_failure_time.isSome = true) ∧
    (∀ (x : ℚ) (l2 : List AttemptInput), (runAttempts l).first_failure_time = some x →
      (runFrom (runAttempts l) l2).first_failure_time = some x) ∧
    (∀ (r : ℚ) (l2 : List AttemptInput), (runAttempts l).first_recovery_time = some r →
      (runFrom (runAttempts l) l2).first_recovery_time = some r) := by
  have hf : (runAttempts l).first_failure_time = specFirstFailure l :=
    runFrom_first_failure_none l _ rfl
  have hr : (runAttempts l).first_recovery_time = specFirstRecovery l :=
    runFrom_first_recovery_none l _ rfl rfl
  refine ⟨hf, hr, ?_, ?_, ?_⟩
  · intro h
    rw [hf]
    apply specFirstRecovery_isSome_implies
    rw [← hr]
    exact h
  · intro x l2 hx
    exact runFrom_first_failure_some l2 _ _ hx
  · intro r l2 hrx
    exact runFrom_first_recovery_some l2 _ _ hrx

/-- Claim C1 witness: on a run with one failure at time 10 followed by one
success at time 15, the recovery timestamp is set, so the theorem yields
that the failure timestamp is set. -/
theorem C1_first_failure_recovery_witness :
    (runAttempts [⟨false, 9, some "down", 10⟩,
                  ⟨true, 4, none, 15⟩]).first_failure_time.isSome = true :=
  (C1_first_failure_recovery
    [⟨false, 9, some "down", 10⟩, ⟨true, 4, none, 15⟩]).2.2.1 (by decide)

/-- Claim C2: after every sequence of `record_write_attempt` calls,
`successful_writes + failed_writes` equals the number of recorded attempts,
`successful_writes` is the number of successful attempts of the sequence,
`failed_writes` the number of failed ones, and from any state both counters
are monotonically non-decreasing under any further sequence of calls. -/
theorem C2_counters (l : List AttemptInput) :
    (runAttempts l).successful_writes + (runAttempts l).failed_writes
        = (runAttempts l).write_attempts.length ∧
    (runAttempts l).successful_writes = l.countP (fun a => a.success) ∧
    (runAttempts l).failed_writes = l.countP (fun a => !a.success) ∧
    (∀ (m : FailoverMetrics) (l2 : List AttemptInput),
      m.successful_writes ≤ (runFrom m l2).successful_writes ∧
      m.failed_writes ≤ (runFrom m l2).failed_writes) := by
  have hs : (runAttempts l).successful_writes = l.countP (fun a => a.success) := by
    simpa [FailoverMetrics.init] using runFrom_successful_writes l FailoverMetrics.init
  have hfw : (runAttempts l).failed_writes = l.countP (fun a => !a.success) := by
    simpa [FailoverMetrics.init] using runFrom_failed_writes l FailoverMetrics.init
  have ha : (runAttempts l).write_attempts.length = l.length := by
    rw [runAttempts, runFrom_write_attempts l FailoverMetrics.init]
    simp [FailoverMetrics.init]
  refine ⟨?_, hs, hfw, ?_⟩
  · rw [hs, hfw, ha]
    exact countP_success_add_countP_not l
  · intro m l2
    constructor
    · rw [runFrom_successful_writes l2 m]
      exact Nat.le_add_right _ _
    · rw [runFrom_failed_writes l2 m]
      exact Nat.le_add_right _ _

/-- Claim C3: the summary's failover duration equals the first-recovery
timestamp minus the first-failure timestamp when both are set and is absent
otherwise; in particular, on a run whose recorded attempts are all
successful the duration is absent and `print_summary` takes the
`NO FAILOVER DETECTED` branch rather than reporting a zero duration. -/
theorem C3_failover_duration (l : List AttemptInput) :
    ((runAttempts l).get_summary.failover_duration_seconds =
      match specFirstFailure l, specFirstRecovery l with
      | some f, some r => some (r - f)
      | _, _ => none) ∧
    (l.all (fun a => a.success) = true →
      (runAttempts l).get_summary.failover_duration_seconds = none ∧
      print_summary_verdict (runAttempts l) = FailoverVerdict.notDetected) := by
  have hf : (runAttempts l).first_failure_time = specFirstFailure l :=
    runFrom_first_failure_none l _ rfl
  have hr : (runAttempts l).first_recovery_time = specFirstRecovery l :=
    runFrom_first_recovery_none l _ rfl rfl
  have hd : (runAttempts l).get_summary.failover_duration_seconds =
      match specFirstFailure l, specFirstRecovery l with
      | some f, some r => some (r - f)
      | _, _ => none := by
    show ((runAttempts l).get_summary_run.1).failover_duration_seconds = _
    simp only [FailoverMetrics.get_summary_run,
      FailoverMetrics.get_failover_duration_seconds_run, hf, hr]
    cases specFirstFailure l <;> cases specFirstRecovery l <;> rfl
  refine ⟨hd, fun hall => ?_⟩
  have hnone : specFirstFailure l = none := by
    have hfind : l.find? (fun a => !a.success) = none := by
      apply List.find?_eq_none.mpr
      intro a ha
      have hsucc := List.all_eq_true.mp hall a ha
      simp [hsucc]
    simp [specFirstFailure, hfind]
  have hdn : (runAttempts l).get_summary.failover_duration_seconds = none := by
    rw [hd, hnone]
  refine ⟨hdn, ?_⟩
  simp only [print_summary_verdict, hdn]

/-- Claim C3 witness: a run with a single successful attempt has no
failover duration and prints the no-failover notice. -/
theorem C3_failover_duration_witness :
    (runAttempts [⟨true, 3, none, 1⟩]).get_summary.failover_duration_seconds = none ∧
    print_summary_verdict (runAttempts [⟨true, 3, none, 1⟩]) =
      FailoverVerdict.notDetected :=
  (C3_failover_duration [⟨true, 3, none, 1⟩]).2 (by decide)


/-- Claim C4 counterexample: record one failure and one success carrying the
same `datetime.now()` value.  Both timestamps are then set and the failover
duration is present and equal to `0`, which is strictly less than the
120-second SLA threshold — yet `print_summary` emits no pass verdict,
because `if summary['failover_duration_seconds']:` treats `0.0` as falsy
and falls through to the `NO FAILOVER DETECTED` branch. -/
theorem C4_counterexample :
    (runAttempts [⟨false, 9, some "down", 6⟩,
                  ⟨true, 4, none, 6⟩]).get_summary.failover_duration_seconds = some 0 ∧
    (0 : ℚ) < 120 ∧
    print_summary_verdict (runAttempts [⟨false, 9, some "down", 6⟩, ⟨true, 4, none, 6⟩])
      ≠ FailoverVerdict.passed := by
  refine ⟨?_, by norm_num, ?_⟩ <;>
    simp [runAttempts, runFrom, FailoverMetrics.record_write_attempt, FailoverMetrics.init,
      FailoverMetrics.get_summary, FailoverMetrics.get_summary_run,
      FailoverMetrics.get_failover_duration_seconds_run, print_summary_verdict]

/-- Claim C4 (amended): the SLA verdict is pass if and only if the failover
duration is present, nonzero, and strictly below the 120-second threshold;
whenever the duration is present and at least the threshold the verdict is
the exceeded line; and when the duration is absent — or present but equal
to zero, which the truthiness test conflates with absent — no verdict is
produced and the no-failover notice is printed instead. -/
theorem C4_sla_verdict (m : FailoverMetrics) :
    (print_summary_verdict m = FailoverVerdict.passed ↔
      (∃ d : ℚ, m.get_summary.failover_duration_seconds = some d ∧ d ≠ 0 ∧ d < 120)) ∧
    (∀ d : ℚ, m.get_summary.failover_duration_seconds = some d → 120 ≤ d →
      print_summary_verdict m = FailoverVerdict.exceeded) ∧
    (m.get_summary.failover_duration_seconds = none →
      print_summary_verdict m = FailoverVerdict.notDetected) ∧
    (m.get_summary.failover_duration_seconds = some 0 →
      print_summary_verdict m = FailoverVerdict.notDetected) := by
  have hv : print_summary_verdict m =
      (match m.get_summary.failover_duration_seconds with
       | some d =>
         if d ≠ 0 then (if d < 120 then FailoverVerdict.passed else FailoverVerdict.exceeded)
         else FailoverVerdict.notDetected
       | none => FailoverVerdict.notDetected) := rfl
  cases h : m.get_summary.failover_duration_seconds with
  | none =>
    rw [h] at hv
    have hv2 : print_summary_verdict m = FailoverVerdict.notDetected := hv
    refine ⟨?_, ?_, fun _ => hv2, ?_⟩
    · rw [hv2]
      constructor
      · intro hc
        cases hc
      · rintro ⟨d, hd, -, -⟩
        cases hd
    · intro d hd
      cases hd
    · intro h0
      cases h0
  | some d =>
    rw [h] at hv
    have hv2 : print_summary_verdict m =
        (if d ≠ 0 then (if d < 120 then FailoverVerdict.passed else FailoverVerdict.exceeded)
         else FailoverVerdict.notDetected) := hv
    by_cases hd0 : d = 0
    · subst hd0
      rw [if_neg (by simp)] at hv2
      refine ⟨?_, ?_, ?_, fun _ => hv2⟩
      · rw [hv2]
        constructor
        · intro hc
          cases hc
        · rintro ⟨d', hd', hne, -⟩
          injection hd' with hdd
          exact absurd hdd.symm hne
      · intro d' hd' hge
        injection hd' with hdd
        rw [← hdd] at hge
        norm_num at hge
      · intro hn
        cases hn
    · rw [if_pos hd0] at hv2
      by_cases hlt : d < 120
      · rw [if_pos hlt] at hv2
        refine ⟨?_, ?_, ?_, ?_⟩
        · rw [hv2]
          exact ⟨fun _ => ⟨d, rfl, hd0, hlt⟩, fun _ => rfl⟩
        · intro d' hd' hge
          injection hd' with hdd
          rw [← hdd] at hge
          exact absurd hlt (not_lt.mpr hge)
        · intro hn
          cases hn
        · intro h0
          injection h0 with hdd
          exact absurd hdd hd0
      · rw [if_neg hlt] at hv2
        refine ⟨?_, fun d' hd' hge => hv2, ?_, ?_⟩
        · rw [hv2]
          constructor
          · intro hc
            cases hc
          · rintro ⟨d', hd', -, hlt'⟩
            injection hd' with hdd
            rw [← hdd] at hlt'
            exact absurd hlt' hlt
        · intro hn
          cases hn
        · intro h0
          injection h0 with hdd
          exact absurd hdd hd0

/-- Claim C4 witness: a 5-second failover passes and a 130-second failover
exceeds the SLA, via the amended theorem at those two concrete states. -/
theorem C4_sla_verdict_witness :
    print_summary_verdict (runAttempts [⟨false, 9, some "down", 0⟩, ⟨true, 4, none, 5⟩])
      = FailoverVerdict.passed ∧
    print_summary_verdict (runAttempts [⟨false, 9, some "down", 0⟩, ⟨true, 4, none, 130⟩])
      = FailoverVerdict.exceeded :=
  ⟨(C4_sla_verdict (runAttempts [⟨false, 9, some "down", 0⟩, ⟨true, 4, none, 5⟩])).1.mpr
      ⟨5,
        by simp [runAttempts, runFrom, FailoverMetrics.record_write_attempt,
          FailoverMetrics.init, FailoverMetrics.get_summary, FailoverMetrics.get_summary_run,
          FailoverMetrics.get_failover_duration_seconds_run],
        by norm_num, by norm_num⟩,
   (C4_sla_verdict (runAttempts [⟨false, 9, some "down", 0⟩, ⟨true, 4, none, 130⟩])).2.1
      130
      (by simp [runAttempts, runFrom, FailoverMetrics.record_write_attempt,
        FailoverMetrics.init, FailoverMetrics.get_summary, FailoverMetrics.get_summary_run,
        FailoverMetrics.get_failover_duration_seconds_run])
      (by norm_num)⟩

theorem get_failover_duration_seconds_run_snd (m : FailoverMetrics) :
    m.get_failover_duration_seconds_run.2 = m := by
  cases h1 : m.first_failure_time <;> cases h2 : m.first_recovery_time <;>
    simp [FailoverMetrics.get_failover_duration_seconds_run, h1, h2]

theorem get_summary_eq (m : FailoverMetrics) :
    m.get_summary =
      { total_attempts := m.write_attempts.length
        successful_writes := m.successful_writes
        failed_writes := m.failed_writes
        success_rate :=
          if m.write_attempts.isEmpty then 0
          else (m.successful_writes : ℚ) / (m.write_attempts.length : ℚ) * 100
        test_start_time := m.start_time
        first_failure_time := m.first_failure_time
        first_recovery_time := m.first_recovery_time
        failover_duration_seconds := m.get_failover_duration_seconds
        avg_write_duration_ms :=
          if ((m.write_attempts.filter (fun w => w.success)).map
              (fun w => w.duration_ms)).isEmpty
          then none
          else some (pyMean ((m.write_attempts.filter (fun w => w.success)).map
            (fun w => w.duration_ms)))
        median_write_duration_ms :=
          if ((m.write_attempts.filter (fun w => w.success)).map
              (fun w => w.duration_ms)).isEmpty
          then none
          else some (pyMedian ((m.write_attempts.filter (fun w => w.success)).map
            (fun w => w.duration_ms))) } := by
  show m.get_summary_run.1 = _
  simp only [FailoverMetrics.get_summary_run, get_failover_duration_seconds_run_snd]
  rfl

/-- Claim C5 counterexample: on a state holding one successful attempt, the
summary's success rate is `100` (a percentage), while the number of
successful attempts divided by the total number of attempts is `1`; the two
differ, so the rate is not the quotient the claim states. -/
theorem C5_counterexample :
    (runAttempts [⟨true, 5, none, 1⟩]).get_summary.success_rate = 100 ∧
    ((runAttempts [⟨true, 5, none, 1⟩]).get_summary.successful_writes : ℚ) /
      ((runAttempts [⟨true, 5, none, 1⟩]).get_summary.total_attempts : ℚ) = 1 ∧
    (100 : ℚ) ≠ 1 := by
  refine ⟨?_, ?_, by norm_num⟩ <;>
    simp [runAttempts, runFrom, FailoverMetrics.record_write_attempt, FailoverMetrics.init,
      FailoverMetrics.get_summary, FailoverMetrics.get_summary_run,
      FailoverMetrics.get_failover_duration_seconds_run]

/-- Claim C5 (amended): for every final metrics state, the summary's success
rate equals the number of successful attempts divided by the total number of
attempts multiplied by 100 (a percentage), and equals 0 when the total is 0
— the empty attempt log takes the guard branch, so no division by zero is
performed. -/
theorem C5_success_rate (l : List AttemptInput) :
    (runAttempts l).get_summary.success_rate =
      if l.length = 0 then 0
      else ((l.countP (fun a => a.success) : ℚ) / (l.length : ℚ)) * 100 := by
  have ha : (runAttempts l).write_attempts = l.map AttemptInput.toAttempt := by
    rw [runAttempts, runFrom_write_attempts l FailoverMetrics.init]
    simp [FailoverMetrics.init]
  have hs : (runAttempts l).successful_writes = l.countP (fun a => a.success) := by
    simpa [FailoverMetrics.init] using runFrom_successful_writes l FailoverMetrics.init
  rw [get_summary_eq]
  simp only [ha, hs]
  rcases l with _ | ⟨a, t⟩
  · rfl
  · simp [List.isEmpty]

theorem successful_durations_map (l : List AttemptInput) :
    ((l.map AttemptInput.toAttempt).filter (fun w => w.success)).map
        (fun w => w.duration_ms)
      = (l.filter (fun a => a.success)).map (fun a => a.duration_ms) := by
  induction l with
  | nil => rfl
  | cons a t ih =>
    cases h : a.success <;>
      simp [AttemptInput.toAttempt, List.filter_cons, h, ih]

/-- Claim C6: the mean and median write latencies of the summary are
computed over the durations of the successful attempts only — failed
attempts' durations are excluded — and both are absent exactly when the
run recorded no successful attempt. -/
theorem C6_latency_stats (l : List AttemptInput) :
    ((runAttempts l).get_summary.avg_write_duration_ms =
      if (l.filter (fun a => a.success)).isEmpty then none
      else some (pyMean ((l.filter (fun a => a.success)).map (fun a => a.duration_ms)))) ∧
    ((runAttempts l).get_summary.median_write_duration_ms =
      if (l.filter (fun a => a.success)).isEmpty then none
      else some (pyMedian ((l.filter (fun a => a.success)).map (fun a => a.duration_ms)))) ∧
    ((runAttempts l).get_summary.avg_write_duration_ms = none ↔
      l.countP (fun a => a.success) = 0) ∧
    ((runAttempts l).get_summary.median_write_duration_ms = none ↔
      l.countP (fun a => a.success) = 0) := by
  have ha : (runAttempts l).write_attempts = l.map AttemptInput.toAttempt := by
    rw [runAttempts, runFrom_write_attempts l FailoverMetrics.init]
    simp [FailoverMetrics.init]
  have hmap := successful_durations_map l
  have hempty : (((runAttempts l).write_attempts.filter (fun w => w.success)).map
      (fun w => w.duration_ms)).isEmpty = (l.filter (fun a => a.success)).isEmpty := by
    rw [ha, hmap]
    cases (l.filter (fun a => a.success)) <;> rfl
  have havg : (runAttempts l).get_summary.avg_write_duration_ms =
      if (l.filter (fun a => a.success)).isEmpty then none
      else some (pyMean ((l.filter (fun a => a.success)).map (fun a => a.duration_ms))) := by
    rw [get_summary_eq]
    simp only [hempty]
    rw [ha, hmap]
  have hmed : (runAttempts l).get_summary.median_write_duration_ms =
      if (l.filter (fun a => a.success)).isEmpty then none
      else some (pyMedian ((l.filter (fun a => a.success)).map (fun a => a.duration_ms))) := by
    rw [get_summary_eq]
    simp only [hempty]
    rw [ha, hmap]
  have hcount : (l.filter (fun a => a.success)).isEmpty = true ↔
      l.countP (fun a => a.success) = 0 := by
    rw [List.isEmpty_iff, ← List.length_eq_zero, List.countP_eq_length_filter]
  refine ⟨havg, hmed, ?_, ?_⟩
  · rw [havg]
    cases h : (l.filter (fun a => a.success)).isEmpty
    · simp [hcount.symm, h]
    · simp [hcount.mp h]
  · rw [hmed]
    cases h : (l.filter (fun a => a.success)).isEmpty
    · simp [hcount.symm, h]
    · simp [hcount.mp h]

/-- Claim C7: `write_info_request` returns on every outcome of the write —
success yields `(True, duration, None)`, and every caught exception yields
`(False, duration, error message)` — so its error component is present
exactly when the success flag is false, and consequently every attempt
recorded by a worker loop feeding its results into `record_write_attempt`
carries an error message if and only if the attempt failed. -/
theorem C7_error_iff_failure (o : WriteOutcome) (runs : List (ℚ × WriteOutcome)) :
    ((write_info_request o).2.2.isSome = true ↔ (write_info_request o).1 = false) ∧
    (∀ w ∈ (runAttempts (runs.map (fun p => attemptOfOutcome p.1 p.2))).write_attempts,
      (w.error.isSome = true ↔ w.success = false)) := by
  constructor
  · cases o <;> simp [write_info_request]
  · intro w hw
    rw [runAttempts, runFrom_write_attempts _ FailoverMetrics.init] at hw
    simp only [FailoverMetrics.init, List.nil_append, List.map_map, List.mem_map] at hw
    obtain ⟨p, hp, hpe⟩ := hw
    subst hpe
    obtain ⟨t, oc⟩ := p
    cases oc <;>
      simp [Function.comp, AttemptInput.toAttempt, attemptOfOutcome, write_info_request]

/-- Claim C7 witness: a run consisting of one write that raised an
`OperationalError` records one attempt, whose error message is present and
whose success flag is false. -/
theorem C7_error_iff_failure_witness :
    (({ timestamp := 10, success := false, duration_ms := 9,
        error := some "server closed" } : WriteAttempt).error.isSome = true ↔
     ({ timestamp := 10, success := false, duration_ms := 9,
        error := some "server closed" } : WriteAttempt).success = false) :=
  (C7_error_iff_failure (WriteOutcome.committed 5)
      [(10, WriteOutcome.dbError 9 (some "server closed") "db error")]).2
    { timestamp := 10, success := false, duration_ms := 9, error := some "server closed" }
    (by simp [runAttempts, runFrom, FailoverMetrics.record_write_attempt,
      FailoverMetrics.init, attemptOfOutcome, write_info_request, AttemptInput.toAttempt])

/-- Claim C8: with an empty pool of reference keys, `setup_test_data` exits
with the setup error, and `run_load_test` — which calls it before assigning
the start time and before creating any worker task — therefore aborts with
that error, starts zero workers, issues zero write attempts, and records
nothing. -/
theorem C8_empty_pool_aborts (num_workers : ℕ) (start_time : ℚ)
    (schedule : List (ℚ × WriteOutcome)) :
    setup_test_data (SetupOutcome.ok []) =
      Except.error "No cruise data found. Please run seed_data.py first." ∧
    (run_load_test num_workers start_time (SetupOutcome.ok []) schedule).setup_error =
      some "No cruise data found. Please run seed_data.py first." ∧
    (run_load_test num_workers start_time (SetupOutcome.ok []) schedule).workers_started = 0 ∧
    (run_load_test num_workers start_time (SetupOutcome.ok []) schedule).attempts_issued = 0 ∧
    (run_load_test num_workers start_time (SetupOutcome.ok [])
        schedule).metrics.write_attempts = [] := by
  refine ⟨rfl, rfl, rfl, rfl, rfl⟩

/-- Claim C9 counterexample: with 0 workers configured (and the script's
default target rate of 50 writes per second), `__init__` evaluates
`1.0 / (writes_per_second / num_workers)` with `num_workers = 0`, and the
inner division raises `ZeroDivisionError`: constructing the tester fails
rather than completing trivially. -/
theorem C9_counterexample :
    constructFailoverLoadTester 0 50 = none ∧ write_delay 50 0 = none := by
  exact ⟨rfl, rfl⟩

/-- Claim C9 (amended): with 0 workers configured, constructing the tester
fails with a division-by-zero while computing the per-worker delay, for any
target write rate, so no run starts; independently, the summary of the
empty metrics state reports 0 attempts with a success rate of 0, and its
computation performs no division by zero (the empty attempt log takes the
guard branch). -/
theorem C9_zero_workers (writes_per_second : ℕ) :
    constructFailoverLoadTester 0 writes_per_second = none ∧
    FailoverMetrics.init.get_summary.total_attempts = 0 ∧
    FailoverMetrics.init.get_summary.success_rate = 0 := by
  refine ⟨?_, rfl, rfl⟩
  simp [constructFailoverLoadTester, write_delay]

/-- Claim C10: the summary operations are pure readers — running
`get_failover_duration_seconds` or `get_summary` returns a state equal to
the input state, with every field (attempt log, both counters, all four
timestamps, the running flag) unchanged. -/
theorem C10_summary_pure (m : FailoverMetrics) :
    m.get_failover_duration_seconds_run.2 = m ∧
    m.get_summary_run.2 = m ∧
    m.get_summary_run.2.write_attempts = m.write_attempts ∧
    m.get_summary_run.2.successful_writes = m.successful_writes ∧
    m.get_summary_run.2.failed_writes = m.failed_writes ∧
    m.get_summary_run.2.start_time = m.start_time ∧
    m.get_summary_run.2.first_failure_time = m.first_failure_time ∧
    m.get_summary_run.2.last_failure_time = m.last_failure_time ∧
    m.get_summary_run.2.first_recovery_time = m.first_recovery_time ∧
    m.get_summary_run.2.test_running = m.test_running := by
  have h1 : m.get_failover_duration_seconds_run.2 = m :=
    get_failover_duration_seconds_run_snd m
  have h2 : m.get_summary_run.2 = m := h1
  exact ⟨h1, h2, by rw [h2], by rw [h2], by rw [h2], by rw [h2], by rw [h2],
    by rw [h2], by rw [h2], by rw [h2]⟩
